import Mathlib

/-!
Verification of the `template_extension` package (a Semantiva extension
template) against its natural-language specification.

The Python sources are shallowly embedded: Python's dynamic values are an
explicit `PyValue` type, raised exceptions become `Except`/`Option` results,
in-place mutation becomes explicit state passing, and the observer-style
context-mutation hand-off (`_notify_context_update`) becomes the list of
`(key, value)` writes a single invocation emits.  Character-level Python
string predicates (`isupper`, `islower`, `isdigit`, `isspace`) are modelled
at ASCII level, which covers every concrete input the specification and the
claims mention.
-/

/-- A dynamic Python value, as far as the embedded code needs to
distinguish values: strings versus everything else.  The non-string
constructors witness that values of other runtime types exist. -/
inductive PyValue where
  | str (s : String)
  | int (n : Int)
  | bool (b : Bool)
  | pyNone
deriving DecidableEq, Repr

/-- Whether a `PyValue` is a Python `str`, i.e. `isinstance(value, str)`. -/
def PyValue.isStr : PyValue → Bool
  | .str _ => true
  | _ => false

/-- The Python exceptions the embedded code raises. -/
inductive PyError where
  | typeError (msg : String)
deriving DecidableEq, Repr

/-- `StringDataType` from `data_types.py`: a `BaseDataType[str]` holding one
string.  Construction goes through `StringDataType.new` below, which runs
`validate` first, so a live instance always holds a string. -/
structure StringDataType where
  data : String
deriving DecidableEq, Repr

/-- `StringDataType.validate` from `data_types.py` lines 14-28: raises
`TypeError("Data must be a string")` when the value is not a `str`,
otherwise returns `True`. -/
def StringDataType.validate (data : PyValue) : Except PyError Bool :=
  if data.isStr then Except.ok true
  else Except.error (PyError.typeError "Data must be a string")

/-- Modelled from the spec: `BaseDataType.__init__` (semantiva host, not in
this repository) stores the candidate value after running `validate` on it
immediately, so a failing `validate` prevents the instance from ever
existing ("fail-fast at construction, not at first use"). -/
def StringDataType.new (data : PyValue) : Except PyError StringDataType :=
  match StringDataType.validate data with
  | Except.error e => Except.error e
  | Except.ok _ =>
      match data with
      | PyValue.str s => Except.ok (StringDataType.mk s)
      | _ => Except.error (PyError.typeError "Data must be a string")

/-- A dynamic object presented to `StringDataCollection.append`: either an
actual `StringDataType` instance or some other Python object. -/
inductive PyObj where
  | strData (d : StringDataType)
  | other (v : PyValue)
deriving DecidableEq, Repr

/-- `StringDataCollection` from `data_types.py`: an ordered list of
`StringDataType` elements backed by a Python `list` (`_data`). -/
structure StringDataCollection where
  data : List StringDataType
deriving DecidableEq, Repr

/-- `StringDataCollection.append` from `data_types.py` lines 47-58: raises
`TypeError("Item must be of type StringDataType")` for a non-`StringDataType`
item, otherwise appends in place.  The result pairs the raised exception (if
any) with the collection state after the call. -/
def StringDataCollection.append (coll : StringDataCollection) (item : PyObj) :
    Option PyError × StringDataCollection :=
  match item with
  | PyObj.strData d => (Option.none, StringDataCollection.mk (coll.data ++ [d]))
  | PyObj.other _ =>
      (Option.some (PyError.typeError "Item must be of type StringDataType"), coll)

/-- `StringDataCollection.__len__` from `data_types.py` lines 60-62. -/
def StringDataCollection.len (coll : StringDataCollection) : Nat :=
  coll.data.length

/-- A value stored under a context key: strings, numbers, booleans and
string-keyed dictionaries cover everything the embedded code writes. -/
inductive CtxVal where
  | str (s : String)
  | nat (n : Nat)
  | bool (b : Bool)
  | dict (entries : List (String × CtxVal))
deriving Repr

/-- Modelled from the spec: `ContextType` (semantiva host, not in this
repository) is "a mapping from string key to arbitrary value". -/
structure ContextType where
  values : List (String × CtxVal)

/-- Modelled from the spec: `ContextType.set_value` introduces a key into
the context mapping. -/
def ContextType.set_value (ctx : ContextType) (key : String) (value : CtxVal) :
    ContextType :=
  ContextType.mk (ctx.values ++ [(key, value)])

/-- The set of keys present in a context, in insertion order. -/
def ContextType.keys (ctx : ContextType) : List String :=
  ctx.values.map Prod.fst

/-- Modelled from the spec: `Payload` (semantiva host, not in this
repository) is "an immutable pairing of one Typed Value ... and one
Context". -/
structure Payload where
  data : StringDataType
  context : ContextType

/-- ASCII model of Python `c.isupper()` for a single character. -/
def pyIsUpper (c : Char) : Bool :=
  decide (65 ≤ c.toNat ∧ c.toNat ≤ 90)

/-- ASCII model of Python `c.islower()` for a single character. -/
def pyIsLower (c : Char) : Bool :=
  decide (97 ≤ c.toNat ∧ c.toNat ≤ 122)

/-- ASCII model of Python `c.isdigit()` for a single character. -/
def pyIsDigit (c : Char) : Bool :=
  decide (48 ≤ c.toNat ∧ c.toNat ≤ 57)

/-- ASCII model of Python `c.isspace()` for a single character: space, tab,
newline, vertical tab, form feed, carriage return. -/
def pyIsSpace (c : Char) : Bool :=
  decide (c.toNat = 32 ∨ c.toNat = 9 ∨ c.toNat = 10 ∨ c.toNat = 11 ∨
    c.toNat = 12 ∨ c.toNat = 13)

/-- ASCII model of Python `c.isalpha()` for a single character. -/
def pyIsAlpha (c : Char) : Bool :=
  pyIsUpper c || pyIsLower c

/-- ASCII model of Python `str.upper()` on a single character. -/
def pyCharUpper (c : Char) : Char :=
  if pyIsLower c then Char.ofNat (c.toNat - 32) else c

/-- ASCII model of Python `str.lower()` on a single character. -/
def pyCharLower (c : Char) : Char :=
  if pyIsUpper c then Char.ofNat (c.toNat + 32) else c

/-- ASCII model of Python `str.upper()`. -/
def pyStrUpper (s : String) : String :=
  String.mk (s.toList.map pyCharUpper)

/-- ASCII model of Python `str.lower()`. -/
def pyStrLower (s : String) : String :=
  String.mk (s.toList.map pyCharLower)

/-- Helper for `pyWords`: walks the characters, accumulating the current
word in reverse; a whitespace run closes the current word (if any). -/
def pyWordsAux : List Char → List Char → List (List Char)
  | [], acc => if acc.isEmpty then [] else [acc.reverse]
  | c :: cs, acc =>
      if pyIsSpace c then
        if acc.isEmpty then pyWordsAux cs [] else acc.reverse :: pyWordsAux cs []
      else pyWordsAux cs (c :: acc)

/-- Model of Python `str.split()` with no argument: split on runs of
whitespace and drop empty pieces. -/
def pySplit (s : String) : List (List Char) :=
  pyWordsAux s.toList []

/-- Model of Python `str.isdigit()` on a whole string: nonempty and every
character a digit. -/
def pyStrIsDigit (s : String) : Bool :=
  !s.toList.isEmpty && s.toList.all pyIsDigit

/-- Model of Python `str.isalpha()` on a whole string: nonempty and every
character alphabetic. -/
def pyStrIsAlpha (s : String) : Bool :=
  !s.toList.isEmpty && s.toList.all pyIsAlpha

/-- Model of Python `sep.join(items)`: CPython appends the separator before
every item but the first. -/
def pyStrJoin (sep : String) : List String → String
  | [] => ""
  | x :: rest => rest.foldl (fun acc item => acc ++ sep ++ item) x

/-- The class objects a node's type metadata can name. -/
inductive SemType where
  | stringDataTypeT
  | stringDataCollectionT
deriving DecidableEq, Repr

/-- `StringOperation.input_data_type` from `operations.py` lines 10-13. -/
def StringOperation.input_data_type : SemType :=
  SemType.stringDataTypeT

/-- `StringOperation.output_data_type` from `operations.py` lines 15-18. -/
def StringOperation.output_data_type : SemType :=
  SemType.stringDataTypeT

/-- `StringCollectionMergeOperation.input_data_type` from `operations.py`
lines 24-27. -/
def StringCollectionMergeOperation.input_data_type : SemType :=
  SemType.stringDataCollectionT

/-- `StringCollectionMergeOperation.output_data_type` from `operations.py`
lines 29-32. -/
def StringCollectionMergeOperation.output_data_type : SemType :=
  SemType.stringDataTypeT

/-- `StringUppercaseOperation._process_logic` from `operations.py` lines
38-47: `return StringDataType(data.data.upper())`.  The constructor call
goes through `StringDataType.new`, which validates. -/
def StringUppercaseOperation.process_logic (data : StringDataType) :
    Except PyError StringDataType :=
  StringDataType.new (PyValue.str (pyStrUpper data.data))

/-- `StringLowercaseOperation._process_logic` from `operations.py` lines
53-62: `return StringDataType(data.data.lower())`. -/
def StringLowercaseOperation.process_logic (data : StringDataType) :
    Except PyError StringDataType :=
  StringDataType.new (PyValue.str (pyStrLower data.data))

/-- `StringConcatenateOperation._process_logic` from `operations.py` lines
68-78: `return StringDataType(data.data + suffix)`. -/
def StringConcatenateOperation.process_logic (data : StringDataType)
    (suffix : String) : Except PyError StringDataType :=
  StringDataType.new (PyValue.str (data.data ++ suffix))

/-- `StringCollectionJoinOperation._process_logic` from `operations.py`
lines 84-96: collect `item.data` for each item of `data.data` in stored
order, join with the separator, wrap in a `StringDataType`.  The Python
default for `separator` is a single space. -/
def StringCollectionJoinOperation.process_logic (data : StringDataCollection)
    (separator : String) : Except PyError StringDataType :=
  let strings := data.data.map (fun item => item.data)
  let joined := pyStrJoin separator strings
  StringDataType.new (PyValue.str joined)

/-- The result dictionary of `StringAnalysisProbe._process_logic`, with the
dictionary's string keys as field names. -/
structure StringAnalysis where
  value : String
  length : Nat
  word_count : Nat
  character_count : Nat
  uppercase_count : Nat
  lowercase_count : Nat
  digit_count : Nat
  whitespace_count : Nat
  is_empty : Bool
  is_numeric : Bool
  is_alphabetic : Bool
  has_uppercase : Bool
  has_lowercase : Bool
deriving DecidableEq, Repr

/-- `StringAnalysisProbe._process_logic` from `probes.py` lines 19-44,
field by field in the source's order.  `text.isdigit() if text else False`
is the conditional on `text` being nonempty, and likewise for `isalpha`. -/
def StringAnalysisProbe.process_logic (data : StringDataType) : StringAnalysis :=
  let text := data.data
  StringAnalysis.mk
    text
    text.toList.length
    (pySplit text).length
    text.toList.length
    (text.toList.countP pyIsUpper)
    (text.toList.countP pyIsLower)
    (text.toList.countP pyIsDigit)
    (text.toList.countP pyIsSpace)
    (text.toList.length = 0)
    (if !text.toList.isEmpty then pyStrIsDigit text else false)
    (if !text.toList.isEmpty then pyStrIsAlpha text else false)
    (text.toList.any pyIsUpper)
    (text.toList.any pyIsLower)

/-- `StringLengthProbe._process_logic` from `probes.py` lines 50-59. -/
def StringLengthProbe.process_logic (data : StringDataType) : Nat :=
  data.data.toList.length

/-- A single context-mutation hand-off call
`self._notify_context_update(key, value)`: the pair it passes. -/
abbrev ContextWrite := String × CtxVal

/-- `EchoContextProcessor.CONTEXT_OUTPUT_KEY` from `processors.py` line 14. -/
def EchoContextProcessor.CONTEXT_OUTPUT_KEY : String :=
  "template.echo"

/-- `EchoContextProcessor.context_keys` from `processors.py` lines 27-29. -/
def EchoContextProcessor.context_keys : List String :=
  [EchoContextProcessor.CONTEXT_OUTPUT_KEY]

/-- `EchoContextProcessor._process_logic` from `processors.py` lines 19-25:
one hand-off call with the declared key and the one-entry dictionary holding
the message.  The returned list collects the hand-off calls the invocation
makes, in order. -/
def EchoContextProcessor.process_logic (message : String) : List ContextWrite :=
  [(EchoContextProcessor.CONTEXT_OUTPUT_KEY,
    CtxVal.dict [("message", CtxVal.str message)])]

/-- `MetadataContextProcessor.CONTEXT_OUTPUT_KEY` from `processors.py`
line 39. -/
def MetadataContextProcessor.CONTEXT_OUTPUT_KEY : String :=
  "template.metadata"

/-- `MetadataContextProcessor.context_keys` from `processors.py` lines
84-87. -/
def MetadataContextProcessor.context_keys : List String :=
  [MetadataContextProcessor.CONTEXT_OUTPUT_KEY]

/-- Truthiness of the `custom_metadata` argument (`if custom_metadata:`):
`None` and the empty dictionary are falsy. -/
def dictTruthy : Option (List (String × CtxVal)) → Bool
  | Option.none => false
  | Option.some entries => !entries.isEmpty

/-- `MetadataContextProcessor._process_logic` from `processors.py` lines
44-82.  `now` stands for the string `datetime.datetime.now().isoformat()`
returns, the invocation's only environmental input.  The Python defaults are
`include_timestamp=True`, `include_stats=True`, `custom_metadata=None`.
The returned list collects the hand-off calls the invocation makes. -/
def MetadataContextProcessor.process_logic (now : String)
    (include_timestamp : Bool) (include_stats : Bool)
    (custom_metadata : Option (List (String × CtxVal))) : List ContextWrite :=
  let metadata : List (String × CtxVal) := []
  let metadata :=
    if include_timestamp then metadata ++ [("timestamp", CtxVal.str now)]
    else metadata
  let metadata :=
    if include_stats then
      metadata ++ [("context_stats", CtxVal.dict [("processor_active", CtxVal.bool true)])]
    else metadata
  let metadata :=
    if dictTruthy custom_metadata then
      metadata ++ [("custom", CtxVal.dict (custom_metadata.getD []))]
    else metadata
  let metadata :=
    metadata ++ [("processor",
      CtxVal.dict [("name", CtxVal.str "MetadataContextProcessor"),
                   ("version", CtxVal.str "1.0.0")])]
  [(MetadataContextProcessor.CONTEXT_OUTPUT_KEY, CtxVal.dict metadata)]

/-- `StringPayloadSource._get_payload` from `data_io.py` lines 102-125: a
fresh context receives, under `context_key`, the metadata dictionary, and
the payload pairs `StringDataType(value)` with that context.  The Python
defaults are `value="Payload Content"`, `context_key="template.source"`. -/
def StringPayloadSource.get_payload (value : String) (context_key : String) :
    Payload :=
  let context := ContextType.set_value (ContextType.mk []) context_key
    (CtxVal.dict [("source", CtxVal.str "StringPayloadSource"),
                  ("timestamp", CtxVal.str "example_timestamp"),
                  ("content_length", CtxVal.nat value.toList.length)])
  Payload.mk (StringDataType.mk value) context

/-- `StringPayloadSource._injected_context_keys` from `data_io.py` lines
132-135. -/
def StringPayloadSource.injected_context_keys : List String :=
  ["template.source"]

/-- The specification's own description of the collection-reduction fold,
written from its words: joining `[]` yields the identity (empty string),
joining `[a]` yields `a`, and joining `a :: rest` interleaves the separator:
`a + s + b + s + c`. -/
def specJoinFold (sep : String) : List String → String
  | [] => ""
  | [a] => a
  | a :: rest => a ++ sep ++ specJoinFold sep rest

theorem foldl_join_eq_specJoinFold (sep : String) (rest : List String) :
    ∀ x, List.foldl (fun acc item => acc ++ sep ++ item) x rest =
      specJoinFold sep (x :: rest) := by
  induction rest with
  | nil => intro x; rfl
  | cons y ys ih =>
      intro x
      rw [List.foldl_cons, ih (x ++ sep ++ y)]
      cases ys with
      | nil => rfl
      | cons z zs => simp [specJoinFold, String.append_assoc]

theorem pyStrJoin_eq_specJoinFold (sep : String) (l : List String) :
    pyStrJoin sep l = specJoinFold sep l := by
  cases l with
  | nil => rfl
  | cons x rest => exact foldl_join_eq_specJoinFold sep rest x

/-- C3: for every collection and separator, the join operation returns a
`StringDataType` whose data is the spec's interleaved fold of the elements
in stored insertion order; the empty collection yields the empty string and
a one-element collection yields its element, for every separator. -/
theorem C3_join_order_preserving_identity_correct :
    (∀ (coll : StringDataCollection) (sep : String),
      StringCollectionJoinOperation.process_logic coll sep =
        Except.ok (StringDataType.mk
          (specJoinFold sep (coll.data.map (fun item => item.data))))) ∧
    (∀ sep : String,
      StringCollectionJoinOperation.process_logic (StringDataCollection.mk []) sep =
        Except.ok (StringDataType.mk "")) ∧
    (∀ (a : StringDataType) (sep : String),
      StringCollectionJoinOperation.process_logic (StringDataCollection.mk [a]) sep =
        Except.ok (StringDataType.mk a.data)) := by
  refine ⟨fun coll sep => ?_, fun sep => rfl, fun a sep => rfl⟩
  show StringDataType.new (PyValue.str
    (pyStrJoin sep (coll.data.map (fun item => item.data)))) = _
  rw [pyStrJoin_eq_specJoinFold]
  rfl

/-- C4: for every non-string value, `validate` and construction fail with
`TypeError("Data must be a string")`, and every successfully constructed
`StringDataType` instance holds exactly the string it was built from, so no
instance holding a non-string ever exists. -/
theorem C4_non_string_construction_fails :
    (∀ x : PyValue, x.isStr = false →
      StringDataType.validate x =
        Except.error (PyError.typeError "Data must be a string") ∧
      StringDataType.new x =
        Except.error (PyError.typeError "Data must be a string")) ∧
    (∀ (x : PyValue) (d : StringDataType),
      StringDataType.new x = Except.ok d → x = PyValue.str d.data) := by
  constructor
  · intro x hx
    cases x with
    | str s => simp [PyValue.isStr] at hx
    | int n => exact ⟨rfl, rfl⟩
    | bool b => exact ⟨rfl, rfl⟩
    | pyNone => exact ⟨rfl, rfl⟩
  · intro x d h
    cases x with
    | str s =>
        have : StringDataType.mk s = d := by
          simpa [StringDataType.new, StringDataType.validate, PyValue.isStr] using h
        rw [← this]
    | int n => simp [StringDataType.new, StringDataType.validate, PyValue.isStr] at h
    | bool b => simp [StringDataType.new, StringDataType.validate, PyValue.isStr] at h
    | pyNone => simp [StringDataType.new, StringDataType.validate, PyValue.isStr] at h

theorem C4_non_string_construction_fails_witness :
    StringDataType.new (PyValue.int 3) =
      Except.error (PyError.typeError "Data must be a string") :=
  (C4_non_string_construction_fails.1 (PyValue.int 3) rfl).2

/-- C5: for every string value, `validate` returns `True` without raising
and construction succeeds with the value stored unchanged. -/
theorem C5_string_construction_succeeds :
    ∀ s : String,
      StringDataType.validate (PyValue.str s) = Except.ok true ∧
      StringDataType.new (PyValue.str s) = Except.ok (StringDataType.mk s) ∧
      (StringDataType.mk s).data = s :=
  fun _ => ⟨rfl, rfl, rfl⟩

/-- C8: invoking the echo context processor with any message results in
exactly one context-mutation hand-off call, for its declared key, with the
one-entry dictionary holding the message; no other context key is
introduced. -/
theorem C8_echo_single_handoff :
    ∀ m : String,
      EchoContextProcessor.process_logic m =
        [("template.echo", CtxVal.dict [("message", CtxVal.str m)])] ∧
      (EchoContextProcessor.process_logic m).length = 1 ∧
      (EchoContextProcessor.process_logic m).map Prod.fst =
        EchoContextProcessor.context_keys :=
  fun _ => ⟨rfl, rfl, rfl⟩

/-- C9: appending a `StringDataType` item always succeeds, increases the
length by exactly one and keeps every previously stored element unchanged
and in order; appending any other object raises `TypeError` and leaves the
collection entirely unchanged. -/
theorem C9_append_total_atomic :
    (∀ (coll : StringDataCollection) (d : StringDataType),
      StringDataCollection.append coll (PyObj.strData d) =
        (Option.none, StringDataCollection.mk (coll.data ++ [d])) ∧
      (StringDataCollection.mk (coll.data ++ [d])).len = coll.len + 1) ∧
    (∀ (coll : StringDataCollection) (v : PyValue),
      StringDataCollection.append coll (PyObj.other v) =
        (Option.some (PyError.typeError "Item must be of type StringDataType"),
          coll)) := by
  refine ⟨fun coll d => ⟨rfl, ?_⟩, fun coll v => rfl⟩
  simp [StringDataCollection.len]

/-- C1 fails as stated: `_get_payload` injects the context key the caller
passes, so with `context_key = "other.key"` the injected key set is
`["other.key"]`, not the declared `["template.source"]`. -/
theorem C1_counterexample_nondefault_key :
    ¬ ((StringPayloadSource.get_payload "v" "other.key").context.keys =
      StringPayloadSource.injected_context_keys) := by
  decide

/-- C1 (amended): the set of context keys `_get_payload` injects is exactly
the singleton of its `context_key` parameter, for every value; it equals the
declared `_injected_context_keys` exactly on the default
`context_key = "template.source"`. -/
theorem C1_injected_keys_amended :
    (∀ value context_key : String,
      (StringPayloadSource.get_payload value context_key).context.keys =
        [context_key]) ∧
    (∀ value : String,
      (StringPayloadSource.get_payload value "template.source").context.keys =
        StringPayloadSource.injected_context_keys) :=
  ⟨fun _ _ => rfl, fun _ => rfl⟩

/-- C2: for every invocation of either context processor the set of keys
actually written through the hand-off is a subset of the declared
`context_keys()`; with every optional branch enabled (timestamp, stats and
nonempty custom metadata for `MetadataContextProcessor`; the echo processor
has no optional branch) it is exactly equal. -/
theorem C2_written_keys_subset_declared :
    (∀ m : String,
      (EchoContextProcessor.process_logic m).map Prod.fst ⊆
        EchoContextProcessor.context_keys) ∧
    (∀ (now : String) (include_timestamp include_stats : Bool)
        (custom_metadata : Option (List (String × CtxVal))),
      (MetadataContextProcessor.process_logic now include_timestamp
          include_stats custom_metadata).map Prod.fst ⊆
        MetadataContextProcessor.context_keys) ∧
    (∀ m : String,
      (EchoContextProcessor.process_logic m).map Prod.fst =
        EchoContextProcessor.context_keys) ∧
    (∀ (now : String) (cm : List (String × CtxVal)), cm ≠ [] →
      (MetadataContextProcessor.process_logic now true true
          (Option.some cm)).map Prod.fst =
        MetadataContextProcessor.context_keys) :=
  ⟨fun _ => fun _ hx => hx,
   fun _ _ _ _ => fun _ hx => hx,
   fun _ => rfl,
   fun _ _ _ => rfl⟩

theorem C2_written_keys_subset_declared_witness :
    ([("k", CtxVal.str "v")] : List (String × CtxVal)) ≠ [] ∧
    (MetadataContextProcessor.process_logic "2024-01-01T00:00:00" true true
        (Option.some [("k", CtxVal.str "v")])).map Prod.fst =
      MetadataContextProcessor.context_keys :=
  ⟨by simp,
   C2_written_keys_subset_declared.2.2.2 "2024-01-01T00:00:00"
     [("k", CtxVal.str "v")] (by simp)⟩

/-- C6: the analysis probe on `"Hello World!"` reports length 12,
word_count 2, uppercase_count 2, lowercase_count 8, whitespace_count 1,
has_uppercase true, has_lowercase true and is_numeric false. -/
theorem C6_analysis_hello_world :
    (StringAnalysisProbe.process_logic (StringDataType.mk "Hello World!")).length = 12 ∧
    (StringAnalysisProbe.process_logic (StringDataType.mk "Hello World!")).word_count = 2 ∧
    (StringAnalysisProbe.process_logic (StringDataType.mk "Hello World!")).uppercase_count = 2 ∧
    (StringAnalysisProbe.process_logic (StringDataType.mk "Hello World!")).lowercase_count = 8 ∧
    (StringAnalysisProbe.process_logic (StringDataType.mk "Hello World!")).whitespace_count = 1 ∧
    (StringAnalysisProbe.process_logic (StringDataType.mk "Hello World!")).has_uppercase = true ∧
    (StringAnalysisProbe.process_logic (StringDataType.mk "Hello World!")).has_lowercase = true ∧
    (StringAnalysisProbe.process_logic (StringDataType.mk "Hello World!")).is_numeric = false := by
  decide

/-- C7: the element-wise case transforms are deterministic (equal inputs
give equal outputs), type-preserving (the declared output type equals the
declared input type, and every accepted input yields a successfully
constructed `StringDataType`), and pure: the result is a new instance whose
data is a function of the input's data alone, the input being untouched
(the embedding has no mutation). -/
theorem C7_elementwise_deterministic_type_preserving :
    StringOperation.output_data_type = StringOperation.input_data_type ∧
    (∀ v w : StringDataType, v.data = w.data →
      StringUppercaseOperation.process_logic v =
        StringUppercaseOperation.process_logic w) ∧
    (∀ v w : StringDataType, v.data = w.data →
      StringLowercaseOperation.process_logic v =
        StringLowercaseOperation.process_logic w) ∧
    (∀ v : StringDataType,
      StringUppercaseOperation.process_logic v =
        Except.ok (StringDataType.mk (pyStrUpper v.data))) ∧
    (∀ v : StringDataType,
      StringLowercaseOperation.process_logic v =
        Except.ok (StringDataType.mk (pyStrLower v.data))) := by
  refine ⟨rfl, fun v w h => ?_, fun v w h => ?_, fun v => rfl, fun v => rfl⟩
  · show StringDataType.new (PyValue.str (pyStrUpper v.data)) = _
    rw [h]
    rfl
  · show StringDataType.new (PyValue.str (pyStrLower v.data)) = _
    rw [h]
    rfl

theorem C7_elementwise_deterministic_type_preserving_witness :
    (StringDataType.mk "ab").data = (StringDataType.mk "ab").data ∧
    StringUppercaseOperation.process_logic (StringDataType.mk "ab") =
      StringUppercaseOperation.process_logic (StringDataType.mk "ab") :=
  ⟨rfl, C7_elementwise_deterministic_type_preserving.2.1
    (StringDataType.mk "ab") (StringDataType.mk "ab") rfl⟩

theorem countP_upper_add_lower_le (l : List Char) :
    l.countP pyIsUpper + l.countP pyIsLower ≤ l.length := by
  induction l with
  | nil => simp
  | cons c cs ih =>
      have hd : pyIsUpper c = false ∨ pyIsLower c = false := by
        by_cases h : pyIsUpper c = true
        · right
          simp only [pyIsUpper, decide_eq_true_eq] at h
          simp only [pyIsLower, decide_eq_false_iff_not]
          omega
        · left
          simpa using h
      rcases hd with h | h <;> simp [List.countP_cons, h] <;> split <;> omega

/-- C10: the analysis result is internally consistent for every input:
`length` equals `character_count`, `is_empty` holds exactly when `length`
is zero, `uppercase_count + lowercase_count` is at most `length`, and on the
empty string both `is_numeric` and `is_alphabetic` are false. -/
theorem C10_analysis_internal_consistency :
    ∀ data : StringDataType,
      (StringAnalysisProbe.process_logic data).length =
        (StringAnalysisProbe.process_logic data).character_count ∧
      ((StringAnalysisProbe.process_logic data).is_empty = true ↔
        (StringAnalysisProbe.process_logic data).length = 0) ∧
      (StringAnalysisProbe.process_logic data).uppercase_count +
          (StringAnalysisProbe.process_logic data).lowercase_count ≤
        (StringAnalysisProbe.process_logic data).length ∧
      (data.data = "" →
        (StringAnalysisProbe.process_logic data).is_numeric = false ∧
        (StringAnalysisProbe.process_logic data).is_alphabetic = false) := by
  intro data
  refine ⟨rfl, ?_, countP_upper_add_lower_le data.data.toList, ?_⟩
  · exact decide_eq_true_iff
  · intro h
    cases data with
    | mk s =>
        simp only at h
        subst h
        exact ⟨rfl, rfl⟩

theorem C10_analysis_internal_consistency_witness :
    ((StringDataType.mk "").data = "") ∧
    (StringAnalysisProbe.process_logic (StringDataType.mk "")).is_numeric = false ∧
    (StringAnalysisProbe.process_logic (StringDataType.mk "")).is_alphabetic = false :=
  ⟨rfl, (C10_analysis_internal_consistency (StringDataType.mk "")).2.2.2 rfl⟩
